import Mathlib

/-!
Verification of the joke-generator client library.

This file gives a shallow embedding of the two library variants:

* `src/joke-generator/lib/rate-limiter.ts` — a fixed-window token-bucket
  rate limiter (`RateLimiter`), modelled by explicit state passing with
  the current clock reading (`Date.now()`) supplied as an argument.
* `src/joke-generator/lib/joke-generator.ts` — `JokeGenerator.buildUrl`,
  the response-classification part of `JokeGenerator.fetchJoke`, and the
  formatting in `JokeGenerator.getRandomJoke`.
* `src/tools/joke-generator/lib/client.ts` — `JokeApiClient.buildUrl`,
  `JokeApiClient.parseResponse` and `JokeApiClient.formatJoke`.

JavaScript numbers are modelled by `Int` (all the values involved are
integers: token counts, millisecond timestamps, joke counts, HTTP status
codes).  `URLSearchParams` is modelled as the ordered list of appended
(key, value) pairs; percent-encoding of serialized values is not
modelled, as no property below inspects a character that encoding would
change.  Thrown exceptions are modelled with `Except`, with one
constructor per distinct error class of the source.
-/

/-- Configuration of the token-bucket limiter (`RateLimiterConfig` in
`types.ts`): `maxRequests` per window of `windowMs` milliseconds. -/
structure RateLimiterConfig where
  maxRequests : Int
  windowMs : Int
deriving DecidableEq, Repr

/-- Mutable state of the token-bucket limiter (`RateLimiterState` in
`types.ts`). -/
structure RateLimiterState where
  tokens : Int
  lastRefill : Int
deriving DecidableEq, Repr

namespace RateLimiter

/-- The `RateLimiter` constructor: `tokens = config.maxRequests`,
`lastRefill = Date.now()` (the construction instant `now`). -/
def init (cfg : RateLimiterConfig) (now : Int) : RateLimiterState :=
  ⟨cfg.maxRequests, now⟩

/-- Model of `RateLimiter.refill`: if `now - lastRefill >= windowMs`, reset
`tokens` to `maxRequests` and `lastRefill` to `now`; otherwise leave the
state unchanged. -/
def refill (cfg : RateLimiterConfig) (s : RateLimiterState) (now : Int) :
    RateLimiterState :=
  if cfg.windowMs ≤ now - s.lastRefill then ⟨cfg.maxRequests, now⟩ else s

/-- Model of `RateLimiter.tryConsume`: refill first; then if `tokens > 0`
decrement and return `true`, else return `false` leaving the state as
the refill left it. -/
def tryConsume (cfg : RateLimiterConfig) (s : RateLimiterState) (now : Int) :
    Bool × RateLimiterState :=
  let s' := refill cfg s now
  if 0 < s'.tokens then (true, ⟨s'.tokens - 1, s'.lastRefill⟩) else (false, s')

/-- Model of `RateLimiter.getAvailableTokens`: refill, then report `tokens`
(together with the state the refill produced). -/
def getAvailableTokens (cfg : RateLimiterConfig) (s : RateLimiterState)
    (now : Int) : Int × RateLimiterState :=
  let s' := refill cfg s now
  (s'.tokens, s')

/-- Model of `RateLimiter.getTimeUntilRefill`:
`Math.max(0, windowMs - (now - lastRefill))`; reads the state without
mutating it. -/
def getTimeUntilRefill (cfg : RateLimiterConfig) (s : RateLimiterState)
    (now : Int) : Int :=
  max 0 (cfg.windowMs - (now - s.lastRefill))

/-- State after `k` successive `tryConsume` calls, all at clock reading
`now`, starting from `s`. -/
def iterState (cfg : RateLimiterConfig) (now : Int) (s : RateLimiterState) :
    Nat → RateLimiterState
  | 0 => s
  | Nat.succ k => (tryConsume cfg (iterState cfg now s k) now).2

end RateLimiter

/-- Model of the JavaScript truthiness fallback `x || d` on a possibly
missing string: absent or empty yields the default `d`. -/
def jsOrString (x : Option String) (d : String) : String :=
  match x with
  | none => d
  | some s => if s = "" then d else s

/-- Model of JavaScript template-literal stringification of a possibly
missing string: an absent value prints as the text `undefined`. -/
def jsTemplateString (x : Option String) : String :=
  match x with
  | none => "undefined"
  | some s => s

/-- Model of `Array.prototype.join(',')`. -/
def joinComma (l : List String) : String :=
  String.intercalate "," l

/-- Model of `URLSearchParams`: the ordered list of appended
(key, value) pairs. -/
def paramsToString (ps : List (String × String)) : String :=
  String.intercalate "&" (ps.map (fun kv => kv.1 ++ "=" ++ kv.2))

/-- One conditional append block `if (options.x) params.append(key, x)`
for a string-valued option (JS truthiness: absent or empty means
skipped). -/
def optStringParam (key : String) (x : Option String) :
    List (String × String) :=
  match x with
  | some v => if v = "" then [] else [(key, v)]
  | none => []

/-- One conditional append block
`if (options.x && options.x.length > 0) params.append(key, x.join(','))`
for a string-list-valued option. -/
def listParam (key : String) (x : Option (List String)) :
    List (String × String) :=
  match x with
  | some vs => if 0 < vs.length then [(key, joinComma vs)] else []
  | none => []

/-- Raw decoded JSON body of an API response, as both variants consume
it: the classification fields (`error`, `code`, `message`, `causedBy`)
and the payload fields used for formatting (`type`, `joke`, `setup`,
`delivery`).  Fields a given response lacks are `none`. -/
structure JokePayload where
  error : Bool
  code : Option Int
  message : Option String
  causedBy : Option (List String)
  type : Option String
  joke : Option String
  setup : Option String
  delivery : Option String
deriving DecidableEq, Repr

/-- The transport-level view of a completed round trip that the code
reads: `response.ok`, `response.status`, and the decoded JSON body. -/
structure Response where
  ok : Bool
  status : Int
  data : JokePayload
deriving DecidableEq, Repr

namespace JokeApiClient

/-- Options accepted by `JokeApiClient` (`JokeFetchOptions` in
`types.ts`).  `category` is a single category or an array of
categories. -/
structure JokeFetchOptions where
  category : Option (String ⊕ List String)
  lang : Option String
  blacklistFlags : Option (List String)
  type : Option String
  contains : Option String
  amount : Option Int
  timeout : Option Int
deriving DecidableEq, Repr

/-- Category path segment of `JokeApiClient.buildUrl`:
`Array.isArray(c) ? c.join(',') : c || 'Any'`. -/
def categorySegment (o : JokeFetchOptions) : String :=
  match o.category with
  | some (Sum.inr l) => joinComma l
  | some (Sum.inl c) => if c = "" then "Any" else c
  | none => "Any"

/-- Amount block of `JokeApiClient.buildUrl`:
`if (options.amount && options.amount > 1 && options.amount <= 10)`
append the amount unchanged. -/
def amountParam (x : Option Int) : List (String × String) :=
  match x with
  | some a => if a ≠ 0 ∧ 1 < a ∧ a ≤ 10 then [("amount", toString a)] else []
  | none => []

/-- Query parameters of `JokeApiClient.buildUrl`, in append order:
`lang`, `blacklistFlags`, `type`, `contains`, `amount`. -/
def buildParams (o : JokeFetchOptions) : List (String × String) :=
  optStringParam "lang" o.lang ++
  listParam "blacklistFlags" o.blacklistFlags ++
  optStringParam "type" o.type ++
  optStringParam "contains" o.contains ++
  amountParam o.amount

/-- Model of `JokeApiClient.buildUrl`:
`<base>/joke/<categories>` plus the query string when nonempty. -/
def buildUrl (baseUrl : String) (o : JokeFetchOptions) : String :=
  let qs := paramsToString (buildParams o)
  baseUrl ++ "/joke/" ++ categorySegment o ++ (if qs = "" then "" else "?" ++ qs)

/-- Error thrown by `JokeApiClient.parseResponse`: the single class
`JokeApiClientError(message, code?, causedBy?)` (both the transport and
the domain branch throw this same class). -/
inductive ClientError where
  | jokeApiClientError (message : String) (code : Option Int)
      (causedBy : Option (List String))
deriving DecidableEq, Repr

/-- Model of `JokeApiClient.parseResponse`: non-ok transport status
throws `JokeApiClientError` with the status as `code`; an ok response
whose body has `error: true` throws `JokeApiClientError` with the
body's code/message/causedBy; otherwise the body is returned. -/
def parseResponse (r : Response) : Except ClientError JokePayload :=
  if r.ok = false then
    Except.error (ClientError.jokeApiClientError
      ("HTTP error! status: " ++ toString r.status) (some r.status) none)
  else if r.data.error = true then
    Except.error (ClientError.jokeApiClientError
      (jsOrString r.data.message "API returned an error") r.data.code
      r.data.causedBy)
  else
    Except.ok r.data

/-- Typed joke union consumed by `JokeApiClient.formatJoke` (`Joke` in
`types.ts`): only the fields the formatter reads are kept. -/
inductive Joke where
  | single (joke : String)
  | twopart (setup : String) (delivery : String)
deriving DecidableEq, Repr

/-- Model of `JokeApiClient.formatJoke`: a single joke verbatim, a
two-part joke as setup and delivery joined by one line break. -/
def formatJoke : Joke → String
  | Joke.single j => j
  | Joke.twopart s d => s ++ "\n" ++ d

end JokeApiClient

namespace JokeGenerator

/-- Options accepted by `JokeGenerator` (`JokeOptions` in the
joke-generator `types.ts`). -/
structure JokeOptions where
  categories : Option (List String)
  blacklistFlags : Option (List String)
  type : Option String
  searchString : Option String
  lang : Option String
  amount : Option Int
deriving DecidableEq, Repr

/-- The constant `DEFAULT_SAFE_CATEGORIES`. -/
def defaultSafeCategories : List String :=
  ["Programming", "Misc", "Pun"]

/-- Category path segment of `JokeGenerator.buildUrl`:
`options.categories?.join(',') || DEFAULT_SAFE_CATEGORIES.join(',')`
(an absent list, and also an empty list whose join is the falsy empty
string, fall back to the default). -/
def categorySegment (o : JokeOptions) : String :=
  match o.categories with
  | some l => if joinComma l = "" then joinComma defaultSafeCategories
              else joinComma l
  | none => joinComma defaultSafeCategories

/-- Amount block of `JokeGenerator.buildUrl`: any truthy amount is
clamped by `Math.max(1, Math.min(10, amount))` and always appended. -/
def amountParam (x : Option Int) : List (String × String) :=
  match x with
  | some a => if a ≠ 0 then [("amount", toString (max 1 (min 10 a)))] else []
  | none => []

/-- Safe-mode block of `JokeGenerator.buildUrl`:
`if (!options.blacklistFlags) params.append('safe-mode', 'true')` —
appended exactly when `blacklistFlags` is absent (an array, even an
empty one, is truthy in JavaScript, so it suppresses the append). -/
def safeModeParam (x : Option (List String)) : List (String × String) :=
  match x with
  | some _ => []
  | none => [("safe-mode", "true")]

/-- Query parameters of `JokeGenerator.buildUrl`, in append order:
`blacklistFlags`, `type`, `contains` (from `searchString`), `lang`,
`amount`, `safe-mode`. -/
def buildParams (o : JokeOptions) : List (String × String) :=
  listParam "blacklistFlags" o.blacklistFlags ++
  optStringParam "type" o.type ++
  optStringParam "contains" o.searchString ++
  optStringParam "lang" o.lang ++
  amountParam o.amount ++
  safeModeParam o.blacklistFlags

/-- Model of `JokeGenerator.buildUrl`: `<apiBaseUrl>/<categories>` plus
the query string when nonempty (the base URL already ends in `/joke`). -/
def buildUrl (baseUrl : String) (o : JokeOptions) : String :=
  let qs := paramsToString (buildParams o)
  baseUrl ++ "/" ++ categorySegment o ++ (if qs = "" then "" else "?" ++ qs)

/-- Errors surfaced by `JokeGenerator.fetchJoke`, one constructor per
distinct error class of the source: `RateLimitError`, `JokeAPIError`,
and the plain wrapped `Error`. -/
inductive JGError where
  | rateLimitError (message : String) (retryAfter : Int)
  | jokeAPIError (message : String) (code : Option Int)
      (causedBy : Option (List String))
  | fetchError (message : String)
deriving DecidableEq, Repr

/-- Response-classification part of `JokeGenerator.fetchJoke` (after
admission): a non-ok response throws `Error` with the HTTP status,
which the surrounding catch wraps into a `Failed to fetch joke:` error;
an ok body with `error: true` throws `JokeAPIError` (rethrown
unwrapped); otherwise the body is returned. -/
def classifyResponse (r : Response) : Except JGError JokePayload :=
  if r.ok = false then
    Except.error (JGError.fetchError
      ("Failed to fetch joke: HTTP error! status: " ++ toString r.status))
  else if r.data.error = true then
    Except.error (JGError.jokeAPIError
      (jsOrString r.data.message "Unknown API error") r.data.code
      r.data.causedBy)
  else
    Except.ok r.data

/-- The `RateLimitError` message:
`Rate limit exceeded. Please try again in <ceil(ms/1000)> seconds.`
(the ceiling division is written for the nonnegative millisecond values
`getTimeUntilRefill` produces). -/
def rateLimitMessage (retryAfter : Int) : String :=
  "Rate limit exceeded. Please try again in " ++
    toString ((retryAfter + 999) / 1000) ++ " seconds."

/-- Outcome of one `fetchJoke` call: the returned value or thrown
error, the rate-limiter state it leaves behind, and whether the
outbound `fetch` was performed. -/
structure FetchOutcome where
  result : Except JGError JokePayload
  limiter : RateLimiterState
  ioPerformed : Bool
deriving Repr

/-- Model of `JokeGenerator.fetchJoke`: consult `tryConsume` first; on
denial throw `RateLimitError` carrying `getTimeUntilRefill` without
performing any I/O; on grant perform the fetch (whose round trip the
environment supplies as `net`) and classify it. -/
def fetchJoke (cfg : RateLimiterConfig) (s : RateLimiterState) (now : Int)
    (net : Response) : FetchOutcome :=
  let r := RateLimiter.tryConsume cfg s now
  if r.1 then
    ⟨classifyResponse net, r.2, true⟩
  else
    let retryAfter := RateLimiter.getTimeUntilRefill cfg r.2 now
    ⟨Except.error (JGError.rateLimitError (rateLimitMessage retryAfter)
      retryAfter), r.2, false⟩

/-- Formatting in `JokeGenerator.getRandomJoke`: a single joke yields
`joke.joke || ''`, a two-part joke yields the template literal
joining setup and delivery with one line break. -/
def formatJoke (p : JokePayload) : String :=
  if p.type = some "single" then jsOrString p.joke ""
  else jsTemplateString p.setup ++ "\n" ++ jsTemplateString p.delivery

end JokeGenerator

/-- Membership in a string-option append block. -/
theorem mem_optStringParam (key : String) (x : Option String)
    (kv : String × String) :
    kv ∈ optStringParam key x ↔ ∃ v, x = some v ∧ v ≠ "" ∧ kv = (key, v) := by
  cases x with
  | none => simp [optStringParam]
  | some v =>
    by_cases hv : v = "" <;> simp [optStringParam, hv]

/-- Membership in a string-list append block. -/
theorem mem_listParam (key : String) (x : Option (List String))
    (kv : String × String) :
    kv ∈ listParam key x ↔
      ∃ vs, x = some vs ∧ 0 < vs.length ∧ kv = (key, joinComma vs) := by
  cases x with
  | none => simp [listParam]
  | some vs =>
    by_cases hvs : 0 < vs.length <;> simp [listParam, hvs]

/-- Membership in the client's amount block. -/
theorem mem_client_amountParam (x : Option Int) (kv : String × String) :
    kv ∈ JokeApiClient.amountParam x ↔
      ∃ a, x = some a ∧ a ≠ 0 ∧ 1 < a ∧ a ≤ 10 ∧ kv = ("amount", toString a) := by
  cases x with
  | none => simp [JokeApiClient.amountParam]
  | some a =>
    by_cases ha : a ≠ 0 ∧ 1 < a ∧ a ≤ 10
    · simp only [JokeApiClient.amountParam, if_pos ha, List.mem_singleton,
        Option.some.injEq]
      constructor
      · intro hkv
        exact ⟨a, rfl, ha.1, ha.2.1, ha.2.2, hkv⟩
      · rintro ⟨a', rfl, _, _, _, hkv⟩
        exact hkv
    · simp only [JokeApiClient.amountParam, if_neg ha, List.not_mem_nil,
        false_iff]
      rintro ⟨a', ha', h0, h1, h10, _⟩
      rw [Option.some.injEq] at ha'
      exact ha (ha' ▸ ⟨h0, h1, h10⟩)

/-- Membership in the generator's amount block. -/
theorem mem_jg_amountParam (x : Option Int) (kv : String × String) :
    kv ∈ JokeGenerator.amountParam x ↔
      ∃ a, x = some a ∧ a ≠ 0 ∧ kv = ("amount", toString (max 1 (min 10 a))) := by
  cases x with
  | none => simp [JokeGenerator.amountParam]
  | some a =>
    by_cases ha : a = 0 <;> simp [JokeGenerator.amountParam, ha]

/-- Membership in the generator's safe-mode block. -/
theorem mem_safeModeParam (x : Option (List String)) (kv : String × String) :
    kv ∈ JokeGenerator.safeModeParam x ↔ x = none ∧ kv = ("safe-mode", "true") := by
  cases x <;> simp [JokeGenerator.safeModeParam]

/-- Decomposition of membership in the client's parameter list. -/
theorem mem_client_buildParams (o : JokeApiClient.JokeFetchOptions)
    (kv : String × String) :
    kv ∈ JokeApiClient.buildParams o ↔
      kv ∈ optStringParam "lang" o.lang ∨
      kv ∈ listParam "blacklistFlags" o.blacklistFlags ∨
      kv ∈ optStringParam "type" o.type ∨
      kv ∈ optStringParam "contains" o.contains ∨
      kv ∈ JokeApiClient.amountParam o.amount := by
  simp [JokeApiClient.buildParams, List.mem_append, or_assoc]

/-- Decomposition of membership in the generator's parameter list. -/
theorem mem_jg_buildParams (o : JokeGenerator.JokeOptions)
    (kv : String × String) :
    kv ∈ JokeGenerator.buildParams o ↔
      kv ∈ listParam "blacklistFlags" o.blacklistFlags ∨
      kv ∈ optStringParam "type" o.type ∨
      kv ∈ optStringParam "contains" o.searchString ∨
      kv ∈ optStringParam "lang" o.lang ∨
      kv ∈ JokeGenerator.amountParam o.amount ∨
      kv ∈ JokeGenerator.safeModeParam o.blacklistFlags := by
  simp [JokeGenerator.buildParams, List.mem_append, or_assoc]

/-- Every key appearing in the client's parameter list is the key of an
option that was actually supplied. -/
theorem client_key_of_mem (o : JokeApiClient.JokeFetchOptions) (k v : String)
    (h : (k, v) ∈ JokeApiClient.buildParams o) :
    (o.lang.isSome ∧ k = "lang") ∨
    (o.blacklistFlags.isSome ∧ k = "blacklistFlags") ∨
    (o.type.isSome ∧ k = "type") ∨
    (o.contains.isSome ∧ k = "contains") ∨
    (o.amount.isSome ∧ k = "amount") := by
  rw [mem_client_buildParams] at h
  rcases h with h | h | h | h | h
  · rcases (mem_optStringParam _ _ _).1 h with ⟨w, hw, _, hkv⟩
    exact Or.inl ⟨by simp [hw], congrArg Prod.fst hkv⟩
  · rcases (mem_listParam _ _ _).1 h with ⟨w, hw, _, hkv⟩
    exact Or.inr (Or.inl ⟨by simp [hw], congrArg Prod.fst hkv⟩)
  · rcases (mem_optStringParam _ _ _).1 h with ⟨w, hw, _, hkv⟩
    exact Or.inr (Or.inr (Or.inl ⟨by simp [hw], congrArg Prod.fst hkv⟩))
  · rcases (mem_optStringParam _ _ _).1 h with ⟨w, hw, _, hkv⟩
    exact Or.inr (Or.inr (Or.inr (Or.inl ⟨by simp [hw], congrArg Prod.fst hkv⟩)))
  · rcases (mem_client_amountParam _ _).1 h with ⟨a, ha, _, _, _, hkv⟩
    exact Or.inr (Or.inr (Or.inr (Or.inr ⟨by simp [ha], congrArg Prod.fst hkv⟩)))

/-- Every key appearing in the generator's parameter list is the key of
an option that was actually supplied, or the safe-mode key added when
no blacklist flags were supplied. -/
theorem jg_key_of_mem (o : JokeGenerator.JokeOptions) (k v : String)
    (h : (k, v) ∈ JokeGenerator.buildParams o) :
    (o.blacklistFlags.isSome ∧ k = "blacklistFlags") ∨
    (o.type.isSome ∧ k = "type") ∨
    (o.searchString.isSome ∧ k = "contains") ∨
    (o.lang.isSome ∧ k = "lang") ∨
    (o.amount.isSome ∧ k = "amount") ∨
    (o.blacklistFlags = none ∧ k = "safe-mode") := by
  rw [mem_jg_buildParams] at h
  rcases h with h | h | h | h | h | h
  · rcases (mem_listParam _ _ _).1 h with ⟨w, hw, _, hkv⟩
    exact Or.inl ⟨by simp [hw], congrArg Prod.fst hkv⟩
  · rcases (mem_optStringParam _ _ _).1 h with ⟨w, hw, _, hkv⟩
    exact Or.inr (Or.inl ⟨by simp [hw], congrArg Prod.fst hkv⟩)
  · rcases (mem_optStringParam _ _ _).1 h with ⟨w, hw, _, hkv⟩
    exact Or.inr (Or.inr (Or.inl ⟨by simp [hw], congrArg Prod.fst hkv⟩))
  · rcases (mem_optStringParam _ _ _).1 h with ⟨w, hw, _, hkv⟩
    exact Or.inr (Or.inr (Or.inr (Or.inl ⟨by simp [hw], congrArg Prod.fst hkv⟩)))
  · rcases (mem_jg_amountParam _ _).1 h with ⟨a, ha, _, hkv⟩
    exact Or.inr (Or.inr (Or.inr (Or.inr (Or.inl
      ⟨by simp [ha], congrArg Prod.fst hkv⟩))))
  · rcases (mem_safeModeParam _ _).1 h with ⟨hn, hkv⟩
    exact Or.inr (Or.inr (Or.inr (Or.inr (Or.inr ⟨hn, congrArg Prod.fst hkv⟩))))

/-- A string with a line break spliced into the middle is never empty. -/
theorem append_newline_ne_empty (s d : String) : s ++ "\n" ++ d ≠ "" := by
  intro h
  have hlen := congrArg String.length h
  rw [String.length_append, String.length_append] at hlen
  have h1 : ("\n" : String).length = 1 := rfl
  have h0 : ("" : String).length = 0 := rfl
  omega

/-- On a fresh limiter with capacity `N ≥ 1`, positive window, and no
time elapsing, the state after `k` immediate `tryConsume` calls is
`⟨max 0 (N - k), t0⟩`. -/
theorem RateLimiter.iterState_fresh (N W t0 : Int) (hN : 1 ≤ N) (hW : 1 ≤ W)
    (k : Nat) :
    RateLimiter.iterState ⟨N, W⟩ t0 (RateLimiter.init ⟨N, W⟩ t0) k =
      ⟨max 0 (N - k), t0⟩ := by
  induction k with
  | zero =>
    simp only [RateLimiter.iterState, RateLimiter.init]
    refine congrArg (RateLimiterState.mk · t0) ?_
    omega
  | succ k ih =>
    simp only [RateLimiter.iterState, ih, RateLimiter.tryConsume,
      RateLimiter.refill]
    have hcond : ¬ ((⟨N, W⟩ : RateLimiterConfig).windowMs ≤
        t0 - (⟨max 0 (N - k), t0⟩ : RateLimiterState).lastRefill) := by
      simp only []
      omega
    rw [if_neg hcond]
    by_cases hpos : 0 < (⟨max 0 (N - k), t0⟩ : RateLimiterState).tokens
    · rw [if_pos hpos]
      simp only [] at hpos ⊢
      refine congrArg (RateLimiterState.mk · t0) ?_
      push_cast
      omega
    · rw [if_neg hpos]
      simp only [] at hpos ⊢
      refine congrArg (RateLimiterState.mk · t0) ?_
      push_cast
      omega

/-- C1: on a freshly constructed token-bucket limiter with capacity
`N ≥ 1` and positive window duration `W`, with no time elapsing, the
first `N` calls to `tryConsume` are granted — the `k`-th call (for
`k < N`) sees `N - k` tokens and returns `true` leaving `N - k - 1`
tokens — and every call from the `(N+1)`-th on returns `false` without
mutating the state further. -/
theorem tryConsume_fresh_exactly_capacity (N W t0 : Int) (hN : 1 ≤ N)
    (hW : 1 ≤ W) (k : Nat) :
    ((k : Int) < N →
      (RateLimiter.iterState ⟨N, W⟩ t0 (RateLimiter.init ⟨N, W⟩ t0) k).tokens =
        N - k ∧
      RateLimiter.tryConsume ⟨N, W⟩
          (RateLimiter.iterState ⟨N, W⟩ t0 (RateLimiter.init ⟨N, W⟩ t0) k) t0 =
        (true, ⟨N - k - 1, t0⟩)) ∧
    (N ≤ (k : Int) →
      RateLimiter.tryConsume ⟨N, W⟩
          (RateLimiter.iterState ⟨N, W⟩ t0 (RateLimiter.init ⟨N, W⟩ t0) k) t0 =
        (false,
          RateLimiter.iterState ⟨N, W⟩ t0 (RateLimiter.init ⟨N, W⟩ t0) k)) := by
  have hfresh := RateLimiter.iterState_fresh N W t0 hN hW k
  constructor
  · intro hk
    rw [hfresh]
    have htok : max 0 (N - (k : Int)) = N - k := by omega
    constructor
    · exact htok
    · simp only [RateLimiter.tryConsume, RateLimiter.refill]
      have hcond : ¬ ((⟨N, W⟩ : RateLimiterConfig).windowMs ≤
          t0 - (⟨max 0 (N - k), t0⟩ : RateLimiterState).lastRefill) := by
        simp only []
        omega
      rw [if_neg hcond]
      have hpos : 0 < (⟨max 0 (N - k), t0⟩ : RateLimiterState).tokens := by
        simp only []
        omega
      rw [if_pos hpos]
      refine congrArg (Prod.mk true) ?_
      refine congrArg (RateLimiterState.mk · t0) ?_
      simp only []
      omega
  · intro hk
    rw [hfresh]
    simp only [RateLimiter.tryConsume, RateLimiter.refill]
    have hcond : ¬ ((⟨N, W⟩ : RateLimiterConfig).windowMs ≤
        t0 - (⟨max 0 (N - k), t0⟩ : RateLimiterState).lastRefill) := by
      simp only []
      omega
    rw [if_neg hcond]
    have hpos : ¬ 0 < (⟨max 0 (N - k), t0⟩ : RateLimiterState).tokens := by
      simp only []
      omega
    rw [if_neg hpos]

/-- Witness for C1: with capacity 2 and window 5, at time 0 the first
call is granted and the third call is denied. -/
theorem tryConsume_fresh_exactly_capacity_witness :
    (RateLimiter.tryConsume ⟨2, 5⟩
        (RateLimiter.iterState ⟨2, 5⟩ 0 (RateLimiter.init ⟨2, 5⟩ 0) 0) 0).1 =
      true ∧
    (RateLimiter.tryConsume ⟨2, 5⟩
        (RateLimiter.iterState ⟨2, 5⟩ 0 (RateLimiter.init ⟨2, 5⟩ 0) 2) 0).1 =
      false := by
  constructor
  · rw [((tryConsume_fresh_exactly_capacity 2 5 0 (by decide) (by decide) 0).1
      (by decide)).2]
  · rw [(tryConsume_fresh_exactly_capacity 2 5 0 (by decide) (by decide) 2).2
      (by decide)]

/-- C2: once `now - lastRefill ≥ windowMs`, the refill check resets the
tokens to the full capacity and the anchor to `now` (a complete
fixed-window reset); a partially elapsed window resets nothing; and so
`tryConsume` succeeds again regardless of prior exhaustion whenever the
capacity is at least 1. -/
theorem refill_full_reset_after_window :
    (∀ (cfg : RateLimiterConfig) (s : RateLimiterState) (now : Int),
      cfg.windowMs ≤ now - s.lastRefill →
      RateLimiter.refill cfg s now = ⟨cfg.maxRequests, now⟩) ∧
    (∀ (cfg : RateLimiterConfig) (s : RateLimiterState) (now : Int),
      now - s.lastRefill < cfg.windowMs →
      RateLimiter.refill cfg s now = s) ∧
    (∀ (cfg : RateLimiterConfig) (s : RateLimiterState) (now : Int),
      1 ≤ cfg.maxRequests →
      cfg.windowMs ≤ now - s.lastRefill →
      RateLimiter.tryConsume cfg s now = (true, ⟨cfg.maxRequests - 1, now⟩)) := by
  refine ⟨?_, ?_, ?_⟩
  · intro cfg s now h
    simp only [RateLimiter.refill]
    rw [if_pos h]
  · intro cfg s now h
    simp only [RateLimiter.refill]
    rw [if_neg (by omega)]
  · intro cfg s now hcap h
    simp only [RateLimiter.tryConsume, RateLimiter.refill]
    rw [if_pos h]
    have hpos : 0 < (⟨cfg.maxRequests, now⟩ : RateLimiterState).tokens := by
      simp only []
      omega
    rw [if_pos hpos]

/-- Witness for C2: a limiter exhausted at anchor 0 with window 10 and
capacity 3, checked at time 10, is fully reset and granted. -/
theorem refill_full_reset_after_window_witness :
    RateLimiter.refill ⟨3, 10⟩ ⟨0, 0⟩ 10 = ⟨3, 10⟩ ∧
    RateLimiter.refill ⟨3, 10⟩ ⟨1, 0⟩ 5 = ⟨1, 0⟩ ∧
    (RateLimiter.tryConsume ⟨3, 10⟩ ⟨0, 0⟩ 10).1 = true := by
  refine ⟨refill_full_reset_after_window.1 ⟨3, 10⟩ ⟨0, 0⟩ 10 (by decide),
    refill_full_reset_after_window.2.1 ⟨3, 10⟩ ⟨1, 0⟩ 5 (by decide), ?_⟩
  rw [refill_full_reset_after_window.2.2 ⟨3, 10⟩ ⟨0, 0⟩ 10 (by decide) (by decide)]

/-- Zeta-reduced form of `tryConsume`. -/
theorem RateLimiter.tryConsume_eq (cfg : RateLimiterConfig)
    (s : RateLimiterState) (now : Int) :
    RateLimiter.tryConsume cfg s now =
      if 0 < (RateLimiter.refill cfg s now).tokens then
        (true, ⟨(RateLimiter.refill cfg s now).tokens - 1,
          (RateLimiter.refill cfg s now).lastRefill⟩)
      else (false, RateLimiter.refill cfg s now) := rfl

/-- Zeta-reduced form of `getAvailableTokens`. -/
theorem RateLimiter.getAvailableTokens_eq (cfg : RateLimiterConfig)
    (s : RateLimiterState) (now : Int) :
    RateLimiter.getAvailableTokens cfg s now =
      ((RateLimiter.refill cfg s now).tokens, RateLimiter.refill cfg s now) := rfl

/-- Refill keeps the token count inside the budget and never moves the
anchor backward under a non-decreasing clock. -/
theorem RateLimiter.refill_bounds (cfg : RateLimiterConfig)
    (s : RateLimiterState) (now : Int) (hcap : 0 ≤ cfg.maxRequests)
    (h0 : 0 ≤ s.tokens) (h1 : s.tokens ≤ cfg.maxRequests)
    (hclock : s.lastRefill ≤ now) :
    0 ≤ (RateLimiter.refill cfg s now).tokens ∧
    (RateLimiter.refill cfg s now).tokens ≤ cfg.maxRequests ∧
    s.lastRefill ≤ (RateLimiter.refill cfg s now).lastRefill := by
  simp only [RateLimiter.refill]
  split_ifs with h
  · exact ⟨hcap, le_refl _, hclock⟩
  · exact ⟨h0, h1, le_refl _⟩

/-- C7: the budget invariant `0 ≤ tokens ≤ maxRequests` holds at
construction (for a nonnegative capacity) and is preserved by
`tryConsume` and `getAvailableTokens`, and under a non-decreasing clock
the window anchor `lastRefill` never moves backward
(`getTimeUntilRefill` reads the state without mutating it). -/
theorem rateLimiter_budget_invariant (cfg : RateLimiterConfig)
    (s : RateLimiterState) (now t0 : Int) (hcap : 0 ≤ cfg.maxRequests)
    (h0 : 0 ≤ s.tokens) (h1 : s.tokens ≤ cfg.maxRequests)
    (hclock : s.lastRefill ≤ now) :
    (0 ≤ (RateLimiter.init cfg t0).tokens ∧
     (RateLimiter.init cfg t0).tokens ≤ cfg.maxRequests) ∧
    (0 ≤ (RateLimiter.tryConsume cfg s now).2.tokens ∧
     (RateLimiter.tryConsume cfg s now).2.tokens ≤ cfg.maxRequests ∧
     s.lastRefill ≤ (RateLimiter.tryConsume cfg s now).2.lastRefill) ∧
    (0 ≤ (RateLimiter.getAvailableTokens cfg s now).2.tokens ∧
     (RateLimiter.getAvailableTokens cfg s now).2.tokens ≤ cfg.maxRequests ∧
     s.lastRefill ≤ (RateLimiter.getAvailableTokens cfg s now).2.lastRefill) := by
  obtain ⟨ha, hb, hc⟩ := RateLimiter.refill_bounds cfg s now hcap h0 h1 hclock
  refine ⟨⟨hcap, le_refl _⟩, ?_, ?_⟩
  · rw [RateLimiter.tryConsume_eq]
    split_ifs with h
    · refine ⟨?_, ?_, ?_⟩
      · show 0 ≤ (RateLimiter.refill cfg s now).tokens - 1
        omega
      · show (RateLimiter.refill cfg s now).tokens - 1 ≤ cfg.maxRequests
        omega
      · exact hc
    · exact ⟨ha, hb, hc⟩
  · rw [RateLimiter.getAvailableTokens_eq]
    exact ⟨ha, hb, hc⟩

/-- Witness for C7: a concrete limiter halfway through its window keeps
the invariant through a consume. -/
theorem rateLimiter_budget_invariant_witness :
    0 ≤ (RateLimiter.tryConsume ⟨10, 60000⟩ ⟨10, 0⟩ 5).2.tokens ∧
    (RateLimiter.tryConsume ⟨10, 60000⟩ ⟨10, 0⟩ 5).2.tokens ≤ 10 ∧
    (0 : Int) ≤ (RateLimiter.tryConsume ⟨10, 60000⟩ ⟨10, 0⟩ 5).2.lastRefill := by
  have h := (rateLimiter_budget_invariant ⟨10, 60000⟩ ⟨10, 0⟩ 5 0 (by decide)
    (by decide) (by decide) (by decide)).2.1
  exact ⟨h.1, h.2.1, h.2.2⟩

/-- C8: `getTimeUntilRefill` returns exactly
`max(0, windowMs - (now - lastRefill))`; as the clock advances over a
fixed state its value is monotonically non-increasing; and it is
exactly 0 once the full window duration has elapsed past the anchor. -/
theorem getTimeUntilRefill_formula (cfg : RateLimiterConfig)
    (s : RateLimiterState) :
    (∀ now, RateLimiter.getTimeUntilRefill cfg s now =
      max 0 (cfg.windowMs - (now - s.lastRefill))) ∧
    (∀ t1 t2, t1 ≤ t2 →
      RateLimiter.getTimeUntilRefill cfg s t2 ≤
        RateLimiter.getTimeUntilRefill cfg s t1) ∧
    (∀ now, cfg.windowMs ≤ now - s.lastRefill →
      RateLimiter.getTimeUntilRefill cfg s now = 0) := by
  refine ⟨fun now => rfl, ?_, ?_⟩
  · intro t1 t2 h
    simp only [RateLimiter.getTimeUntilRefill]
    omega
  · intro now h
    simp only [RateLimiter.getTimeUntilRefill]
    omega

/-- Witness for C8: with a 60000 ms window anchored at 0, the remaining
time at 15000 is no more than at 10000, and at 60000 it is exactly 0. -/
theorem getTimeUntilRefill_formula_witness :
    RateLimiter.getTimeUntilRefill ⟨10, 60000⟩ ⟨10, 0⟩ 15000 ≤
      RateLimiter.getTimeUntilRefill ⟨10, 60000⟩ ⟨10, 0⟩ 10000 ∧
    RateLimiter.getTimeUntilRefill ⟨10, 60000⟩ ⟨10, 0⟩ 60000 = 0 := by
  exact ⟨(getTimeUntilRefill_formula ⟨10, 60000⟩ ⟨10, 0⟩).2.1 10000 15000
      (by decide),
    (getTimeUntilRefill_formula ⟨10, 60000⟩ ⟨10, 0⟩).2.2 60000 (by decide)⟩

/-- C3: after a transport round trip, both clients classify the outcome
into exactly one result — a non-ok status yields the transport failure
carrying that status (`parseResponse` stores it as the error code, the
generator embeds it in the wrapped message), an ok status whose payload
has `error: true` yields the domain failure carrying the payload's
code, message (with the source's falsy-fallback) and contributing
reasons, and otherwise the payload is returned as the success — and in
the generator's error taxonomy the failure kinds are distinct
constructors. -/
theorem response_classification (r : Response) :
    (r.ok = false →
      JokeGenerator.classifyResponse r =
        Except.error (JokeGenerator.JGError.fetchError
          ("Failed to fetch joke: HTTP error! status: " ++ toString r.status)) ∧
      JokeApiClient.parseResponse r =
        Except.error (JokeApiClient.ClientError.jokeApiClientError
          ("HTTP error! status: " ++ toString r.status) (some r.status) none)) ∧
    (r.ok = true → r.data.error = true →
      JokeGenerator.classifyResponse r =
        Except.error (JokeGenerator.JGError.jokeAPIError
          (jsOrString r.data.message "Unknown API error") r.data.code
          r.data.causedBy) ∧
      JokeApiClient.parseResponse r =
        Except.error (JokeApiClient.ClientError.jokeApiClientError
          (jsOrString r.data.message "API returned an error") r.data.code
          r.data.causedBy)) ∧
    (r.ok = true → r.data.error = false →
      JokeGenerator.classifyResponse r = Except.ok r.data ∧
      JokeApiClient.parseResponse r = Except.ok r.data) ∧
    (∀ (m m2 : String) (c : Option Int) (cb : Option (List String)),
      JokeGenerator.JGError.fetchError m ≠
        JokeGenerator.JGError.jokeAPIError m2 c cb) ∧
    (∀ (m m2 : String) (ra : Int),
      JokeGenerator.JGError.rateLimitError m ra ≠
        JokeGenerator.JGError.fetchError m2) := by
  refine ⟨?_, ?_, ?_, ?_, ?_⟩
  · intro hok
    constructor <;>
      simp [JokeGenerator.classifyResponse, JokeApiClient.parseResponse, hok]
  · intro hok herr
    constructor <;>
      simp [JokeGenerator.classifyResponse, JokeApiClient.parseResponse, hok, herr]
  · intro hok herr
    constructor <;>
      simp [JokeGenerator.classifyResponse, JokeApiClient.parseResponse, hok, herr]
  · intro m m2 c cb h
    exact JokeGenerator.JGError.noConfusion h
  · intro m m2 ra h
    exact JokeGenerator.JGError.noConfusion h

/-- Witness for C3: the spec's example payload
`error: true, code: 106, message: "No matching joke found"` classifies
as the domain failure with that code and message, and a status-500
non-ok response classifies as the transport failure carrying 500. -/
theorem response_classification_witness :
    JokeGenerator.classifyResponse
        ⟨true, 200, ⟨true, some 106, some "No matching joke found", some [],
          none, none, none, none⟩⟩ =
      Except.error (JokeGenerator.JGError.jokeAPIError "No matching joke found"
        (some 106) (some [])) ∧
    JokeApiClient.parseResponse
        ⟨false, 500, ⟨false, none, none, none, none, none, none, none⟩⟩ =
      Except.error (JokeApiClient.ClientError.jokeApiClientError
        ("HTTP error! status: " ++ toString (500 : Int)) (some 500) none) := by
  constructor
  · exact ((response_classification
      ⟨true, 200, ⟨true, some 106, some "No matching joke found", some [],
        none, none, none, none⟩⟩).2.1 rfl rfl).1
  · exact ((response_classification
      ⟨false, 500, ⟨false, none, none, none, none, none, none, none⟩⟩).1 rfl).2

/-- C4: `fetchJoke` consults the rate limiter before any I/O; when
admission is denied it fails fast with a `RateLimitError` carrying the
(nonnegative) time remaining until the next refill as its wait hint,
and the outbound request is not performed. -/
theorem fetchJoke_denied_fails_fast (cfg : RateLimiterConfig)
    (s : RateLimiterState) (now : Int) (net : Response)
    (h : (RateLimiter.tryConsume cfg s now).1 = false) :
    (JokeGenerator.fetchJoke cfg s now net).ioPerformed = false ∧
    (JokeGenerator.fetchJoke cfg s now net).result =
      Except.error (JokeGenerator.JGError.rateLimitError
        (JokeGenerator.rateLimitMessage (RateLimiter.getTimeUntilRefill cfg
          (RateLimiter.tryConsume cfg s now).2 now))
        (RateLimiter.getTimeUntilRefill cfg
          (RateLimiter.tryConsume cfg s now).2 now)) ∧
    0 ≤ RateLimiter.getTimeUntilRefill cfg
          (RateLimiter.tryConsume cfg s now).2 now ∧
    (JokeGenerator.fetchJoke cfg s now net).limiter =
      (RateLimiter.tryConsume cfg s now).2 := by
  refine ⟨?_, ?_, le_max_left _ _, ?_⟩ <;>
    simp [JokeGenerator.fetchJoke, h]

/-- Witness for C4: an exhausted limiter denies, and the call performs
no I/O. -/
theorem fetchJoke_denied_fails_fast_witness :
    (JokeGenerator.fetchJoke ⟨1, 1000⟩ ⟨0, 0⟩ 0
      ⟨true, 200, ⟨false, none, none, none, none, none, none, none⟩⟩).ioPerformed =
      false := by
  exact (fetchJoke_denied_fails_fast ⟨1, 1000⟩ ⟨0, 0⟩ 0
    ⟨true, 200, ⟨false, none, none, none, none, none, none, none⟩⟩
    (by decide)).1

/-- Counterexample to C5: in the token-bucket variant's URL builder,
supplying `amount: 1` does emit an `amount=1` query parameter (the
source clamps any truthy amount and always appends it), contradicting
"an options value amount = 1 emits no amount parameter". -/
theorem amount_one_emitted_counterexample :
    JokeGenerator.buildParams ⟨none, none, none, none, none, some 1⟩ =
      [("amount", "1"), ("safe-mode", "true")] ∧
    ("amount", "1") ∈
      JokeGenerator.buildParams ⟨none, none, none, none, none, some 1⟩ := by
  exact ⟨by decide, by decide⟩

/-- C5 (amended): in the tools client's URL builder the amount
parameter is emitted, unclamped, exactly when the supplied count lies
in `(1, 10]` — so `amount = 1` emits nothing and `amount = 5` emits
`amount=5` — while the token-bucket variant's builder clamps any truthy
count into `[1, 10]` and always emits it, including `amount=1`. -/
theorem amount_parameter_policy :
    (∀ (o : JokeApiClient.JokeFetchOptions) (a : Int), o.amount = some a →
      1 < a → a ≤ 10 →
      ("amount", toString a) ∈ JokeApiClient.buildParams o) ∧
    (∀ (o : JokeApiClient.JokeFetchOptions) (a : Int), o.amount = some a →
      a ≤ 1 ∨ 10 < a →
      ∀ v, ("amount", v) ∉ JokeApiClient.buildParams o) ∧
    (∀ o : JokeApiClient.JokeFetchOptions, o.amount = none →
      ∀ v, ("amount", v) ∉ JokeApiClient.buildParams o) ∧
    (∀ (o : JokeGenerator.JokeOptions) (a : Int), o.amount = some a → a ≠ 0 →
      ("amount", toString (max 1 (min 10 a))) ∈ JokeGenerator.buildParams o ∧
      1 ≤ max 1 (min 10 a) ∧ max 1 (min 10 a) ≤ 10) := by
  refine ⟨?_, ?_, ?_, ?_⟩
  · intro o a ha h1 h10
    rw [mem_client_buildParams]
    refine Or.inr (Or.inr (Or.inr (Or.inr ?_)))
    rw [mem_client_amountParam]
    exact ⟨a, ha, by omega, h1, h10, rfl⟩
  · intro o a ha hout v hmem
    rw [mem_client_buildParams] at hmem
    rcases hmem with h | h | h | h | h
    · rcases (mem_optStringParam _ _ _).1 h with ⟨w, _, _, hkv⟩
      exact (by decide : ("amount" : String) ≠ "lang") (congrArg Prod.fst hkv)
    · rcases (mem_listParam _ _ _).1 h with ⟨w, _, _, hkv⟩
      exact (by decide : ("amount" : String) ≠ "blacklistFlags")
        (congrArg Prod.fst hkv)
    · rcases (mem_optStringParam _ _ _).1 h with ⟨w, _, _, hkv⟩
      exact (by decide : ("amount" : String) ≠ "type") (congrArg Prod.fst hkv)
    · rcases (mem_optStringParam _ _ _).1 h with ⟨w, _, _, hkv⟩
      exact (by decide : ("amount" : String) ≠ "contains")
        (congrArg Prod.fst hkv)
    · rcases (mem_client_amountParam _ _).1 h with ⟨a', ha', _, h1', h10', _⟩
      rw [ha] at ha'
      rw [Option.some.injEq] at ha'
      omega
  · intro o ho v hmem
    rw [mem_client_buildParams] at hmem
    rcases hmem with h | h | h | h | h
    · rcases (mem_optStringParam _ _ _).1 h with ⟨w, _, _, hkv⟩
      exact (by decide : ("amount" : String) ≠ "lang") (congrArg Prod.fst hkv)
    · rcases (mem_listParam _ _ _).1 h with ⟨w, _, _, hkv⟩
      exact (by decide : ("amount" : String) ≠ "blacklistFlags")
        (congrArg Prod.fst hkv)
    · rcases (mem_optStringParam _ _ _).1 h with ⟨w, _, _, hkv⟩
      exact (by decide : ("amount" : String) ≠ "type") (congrArg Prod.fst hkv)
    · rcases (mem_optStringParam _ _ _).1 h with ⟨w, _, _, hkv⟩
      exact (by decide : ("amount" : String) ≠ "contains")
        (congrArg Prod.fst hkv)
    · rcases (mem_client_amountParam _ _).1 h with ⟨a', ha', _⟩
      rw [ho] at ha'
      exact Option.noConfusion ha'
  · intro o a ha h0
    refine ⟨?_, by omega, by omega⟩
    rw [mem_jg_buildParams]
    refine Or.inr (Or.inr (Or.inr (Or.inr (Or.inl ?_))))
    rw [mem_jg_amountParam]
    exact ⟨a, ha, h0, rfl⟩

/-- Witness for C5 (amended): `amount = 5` emits `amount=5` and
`amount = 1` emits no amount parameter in the tools client, while the
token-bucket variant emits the clamped value for `amount = 1`. -/
theorem amount_parameter_policy_witness :
    ("amount", toString (5 : Int)) ∈
      JokeApiClient.buildParams ⟨none, none, none, none, none, some 5, none⟩ ∧
    ("amount", "1") ∉
      JokeApiClient.buildParams ⟨none, none, none, none, none, some 1, none⟩ ∧
    ("amount", toString (max 1 (min 10 (1 : Int)))) ∈
      JokeGenerator.buildParams ⟨none, none, none, none, none, some 1⟩ := by
  exact ⟨amount_parameter_policy.1 _ 5 rfl (by decide) (by decide),
    amount_parameter_policy.2.1 _ 1 rfl (Or.inl (by decide)) "1",
    (amount_parameter_policy.2.2.2 _ 1 rfl (by decide)).1⟩

/-- C6: in the tools client the category path segment is the sentinel
`Any` when no category is supplied and a supplied list is joined
comma-separated in caller order (`["Programming", "Pun"]` gives
`Programming,Pun`); no query parameter is emitted for an absent option;
and the token-bucket variant's builder likewise falls back to its
designated default category list when none is supplied. -/
theorem url_category_and_absent_options :
    (∀ o : JokeApiClient.JokeFetchOptions, o.category = none →
      JokeApiClient.categorySegment o = "Any") ∧
    (∀ (o : JokeApiClient.JokeFetchOptions) (l : List String),
      o.category = some (Sum.inr l) →
      JokeApiClient.categorySegment o = joinComma l) ∧
    joinComma ["Programming", "Pun"] = "Programming,Pun" ∧
    (∀ o : JokeApiClient.JokeFetchOptions, o.lang = none →
      ∀ v, ("lang", v) ∉ JokeApiClient.buildParams o) ∧
    (∀ o : JokeApiClient.JokeFetchOptions, o.blacklistFlags = none →
      ∀ v, ("blacklistFlags", v) ∉ JokeApiClient.buildParams o) ∧
    (∀ o : JokeApiClient.JokeFetchOptions, o.type = none →
      ∀ v, ("type", v) ∉ JokeApiClient.buildParams o) ∧
    (∀ o : JokeApiClient.JokeFetchOptions, o.contains = none →
      ∀ v, ("contains", v) ∉ JokeApiClient.buildParams o) ∧
    (∀ o : JokeGenerator.JokeOptions, o.categories = none →
      JokeGenerator.categorySegment o =
        joinComma JokeGenerator.defaultSafeCategories) := by
  refine ⟨?_, ?_, by decide, ?_, ?_, ?_, ?_, ?_⟩
  · intro o ho
    simp [JokeApiClient.categorySegment, ho]
  · intro o l ho
    simp [JokeApiClient.categorySegment, ho]
  · intro o ho v hmem
    rcases client_key_of_mem o _ _ hmem with ⟨hs, hk⟩ | ⟨hs, hk⟩ | ⟨hs, hk⟩ |
      ⟨hs, hk⟩ | ⟨hs, hk⟩
    · rw [ho] at hs
      exact Bool.noConfusion hs
    · exact (by decide : ("lang" : String) ≠ "blacklistFlags") hk
    · exact (by decide : ("lang" : String) ≠ "type") hk
    · exact (by decide : ("lang" : String) ≠ "contains") hk
    · exact (by decide : ("lang" : String) ≠ "amount") hk
  · intro o ho v hmem
    rcases client_key_of_mem o _ _ hmem with ⟨hs, hk⟩ | ⟨hs, hk⟩ | ⟨hs, hk⟩ |
      ⟨hs, hk⟩ | ⟨hs, hk⟩
    · exact (by decide : ("blacklistFlags" : String) ≠ "lang") hk
    · rw [ho] at hs
      exact Bool.noConfusion hs
    · exact (by decide : ("blacklistFlags" : String) ≠ "type") hk
    · exact (by decide : ("blacklistFlags" : String) ≠ "contains") hk
    · exact (by decide : ("blacklistFlags" : String) ≠ "amount") hk
  · intro o ho v hmem
    rcases client_key_of_mem o _ _ hmem with ⟨hs, hk⟩ | ⟨hs, hk⟩ | ⟨hs, hk⟩ |
      ⟨hs, hk⟩ | ⟨hs, hk⟩
    · exact (by decide : ("type" : String) ≠ "lang") hk
    · exact (by decide : ("type" : String) ≠ "blacklistFlags") hk
    · rw [ho] at hs
      exact Bool.noConfusion hs
    · exact (by decide : ("type" : String) ≠ "contains") hk
    · exact (by decide : ("type" : String) ≠ "amount") hk
  · intro o ho v hmem
    rcases client_key_of_mem o _ _ hmem with ⟨hs, hk⟩ | ⟨hs, hk⟩ | ⟨hs, hk⟩ |
      ⟨hs, hk⟩ | ⟨hs, hk⟩
    · exact (by decide : ("contains" : String) ≠ "lang") hk
    · exact (by decide : ("contains" : String) ≠ "blacklistFlags") hk
    · exact (by decide : ("contains" : String) ≠ "type") hk
    · rw [ho] at hs
      exact Bool.noConfusion hs
    · exact (by decide : ("contains" : String) ≠ "amount") hk
  · intro o ho
    simp [JokeGenerator.categorySegment, ho]

/-- Witness for C6: concrete options exercising the sentinel, the
ordered join, and the absence of a parameter for an absent option. -/
theorem url_category_and_absent_options_witness :
    JokeApiClient.categorySegment ⟨none, none, none, none, none, none, none⟩ =
      "Any" ∧
    JokeApiClient.categorySegment
        ⟨some (Sum.inr ["Programming", "Pun"]), none, none, none, none, none,
          none⟩ =
      joinComma ["Programming", "Pun"] ∧
    ("lang", "") ∉
      JokeApiClient.buildParams ⟨none, none, none, none, none, none, none⟩ := by
  exact ⟨url_category_and_absent_options.1 _ rfl,
    url_category_and_absent_options.2.1 _ ["Programming", "Pun"] rfl,
    url_category_and_absent_options.2.2.2.1 _ rfl ""⟩

/-- Counterexample to C9: a single-form payload whose text is the empty
string is classified as a success by both clients, yet both formatters
produce the empty string for it. -/
theorem empty_single_formats_empty_counterexample :
    JokeGenerator.classifyResponse
        ⟨true, 200, ⟨false, none, none, none, some "single", some "", none,
          none⟩⟩ =
      Except.ok ⟨false, none, none, none, some "single", some "", none, none⟩ ∧
    JokeGenerator.formatJoke
        ⟨false, none, none, none, some "single", some "", none, none⟩ = "" ∧
    JokeApiClient.parseResponse
        ⟨true, 200, ⟨false, none, none, none, some "single", some "", none,
          none⟩⟩ =
      Except.ok ⟨false, none, none, none, some "single", some "", none, none⟩ ∧
    JokeApiClient.formatJoke (JokeApiClient.Joke.single "") = "" ∧
    ("" : String).length = 0 := by
  exact ⟨rfl, rfl, rfl, rfl, rfl⟩

/-- C9 (amended): the formatter yields a single-form joke's text
verbatim — so the result is non-empty exactly when the text is — and a
two-part form always yields setup and delivery joined by one line
break, which is never empty; the same holds of the generator's
formatting of a two-part payload. -/
theorem formatter_verbatim_and_twopart_nonempty :
    (∀ j : String, JokeApiClient.formatJoke (JokeApiClient.Joke.single j) = j) ∧
    (∀ s d : String,
      JokeApiClient.formatJoke (JokeApiClient.Joke.twopart s d) =
        s ++ "\n" ++ d) ∧
    (∀ s d : String,
      JokeApiClient.formatJoke (JokeApiClient.Joke.twopart s d) ≠ "") ∧
    (∀ j : String, j ≠ "" →
      JokeApiClient.formatJoke (JokeApiClient.Joke.single j) ≠ "") ∧
    (∀ s d : String,
      JokeGenerator.formatJoke
        ⟨false, none, none, none, some "twopart", none, some s, some d⟩ ≠ "") := by
  refine ⟨fun j => rfl, fun s d => rfl, ?_, ?_, ?_⟩
  · intro s d
    exact append_newline_ne_empty s d
  · intro j hj h
    exact hj h
  · intro s d h
    have hne : (some "twopart" : Option String) ≠ some "single" := by decide
    rw [JokeGenerator.formatJoke, if_neg hne] at h
    exact append_newline_ne_empty (jsTemplateString (some s))
      (jsTemplateString (some d)) h

/-- Witness for C9 (amended): concrete single and two-part jokes. -/
theorem formatter_verbatim_and_twopart_nonempty_witness :
    JokeApiClient.formatJoke (JokeApiClient.Joke.single "X") = "X" ∧
    JokeApiClient.formatJoke (JokeApiClient.Joke.twopart "A" "B") ≠ "" ∧
    JokeApiClient.formatJoke (JokeApiClient.Joke.single "X") ≠ "" := by
  exact ⟨formatter_verbatim_and_twopart_nonempty.1 "X",
    formatter_verbatim_and_twopart_nonempty.2.2.1 "A" "B",
    formatter_verbatim_and_twopart_nonempty.2.2.2.1 "X" (by decide)⟩

/-- Counterexample to C10: supplying an explicit empty `blacklistFlags`
list produces no parameters at all — in particular no `safe-mode=true`
— because an empty array is truthy in JavaScript, contradicting the
claim that an empty list still gets safe-mode appended. -/
theorem empty_blacklist_no_safe_mode_counterexample :
    JokeGenerator.buildParams ⟨none, some [], none, none, none, none⟩ = [] ∧
    ("safe-mode", "true") ∉
      JokeGenerator.buildParams ⟨none, some [], none, none, none, none⟩ := by
  exact ⟨by decide, by decide⟩

/-- C10 (amended): the token-bucket variant's URL builder appends
`safe-mode=true` exactly when `blacklistFlags` is absent — regardless
of every other option — and supplying any `blacklistFlags` value, even
an empty list, suppresses the parameter. -/
theorem safe_mode_iff_blacklist_absent :
    (∀ o : JokeGenerator.JokeOptions, o.blacklistFlags = none →
      ("safe-mode", "true") ∈ JokeGenerator.buildParams o) ∧
    (∀ (o : JokeGenerator.JokeOptions) (fs : List String),
      o.blacklistFlags = some fs →
      ∀ v, ("safe-mode", v) ∉ JokeGenerator.buildParams o) := by
  constructor
  · intro o ho
    rw [mem_jg_buildParams]
    refine Or.inr (Or.inr (Or.inr (Or.inr (Or.inr ?_))))
    rw [mem_safeModeParam]
    exact ⟨ho, rfl⟩
  · intro o fs ho v hmem
    rcases jg_key_of_mem o _ _ hmem with ⟨hs, hk⟩ | ⟨hs, hk⟩ | ⟨hs, hk⟩ |
      ⟨hs, hk⟩ | ⟨hs, hk⟩ | ⟨hn, hk⟩
    · exact (by decide : ("safe-mode" : String) ≠ "blacklistFlags") hk
    · exact (by decide : ("safe-mode" : String) ≠ "type") hk
    · exact (by decide : ("safe-mode" : String) ≠ "contains") hk
    · exact (by decide : ("safe-mode" : String) ≠ "lang") hk
    · exact (by decide : ("safe-mode" : String) ≠ "amount") hk
    · rw [ho] at hn
      exact Option.noConfusion hn

/-- Witness for C10 (amended): absent flags emit safe-mode, a supplied
list suppresses it. -/
theorem safe_mode_iff_blacklist_absent_witness :
    ("safe-mode", "true") ∈
      JokeGenerator.buildParams ⟨none, none, none, none, none, none⟩ ∧
    ("safe-mode", "true") ∉
      JokeGenerator.buildParams ⟨none, some ["nsfw"], none, none, none, none⟩ := by
  exact ⟨safe_mode_iff_blacklist_absent.1 _ rfl,
    safe_mode_iff_blacklist_absent.2 _ ["nsfw"] rfl "true"⟩
